import Mathlib

/-!
# Verification of the `suwon_mate_admin_tool` catalog merger

Shallow embedding of `src/lib.rs` and `src/main.rs` of the repository
`sun30812/suwon_mate_admin_tool`, a tool that merges two JSON course-catalog
exports (an "open class" listing and a "class syllabus/todo" listing) into a
single database document.

Modelling choices, next to the source:
* `serde_json::Value` is the inductive type `Json`; indexing a `Value` with a
  string key (`value["k"]`), which yields `Null` when the key is missing or the
  value is not an object, is `Json.get`.
* `HashMap` values are association lists (`alistGet` / `alistSet`, where
  `alistSet` overwrites an existing binding in place, like `HashMap::insert`);
  `HashSet<&str>` is a duplicate-free `List String` built with `insertUniq`.
  Only key membership and per-key contents are observable in the claims below,
  so the (randomized) iteration order of the Rust containers is abstracted to
  first-insertion order.
* `std::process::exit(1)` on a missing top-level array and a panicking
  `Option::unwrap` are both modelled as `Except.error` values of type
  `DbError`, so that the claims can distinguish a clean result from an abort.
* `make_db_content` takes the two documents already parsed (its first step in
  the source, `serde_json::from_str`, is outside the merge logic the claims
  are about), and returns the result document as a `Json` tree rather than its
  serialized text.
-/

/-- Model of `serde_json::Value`. -/
inductive Json : Type where
  | null : Json
  | bool : Bool → Json
  | num : Int → Json
  | str : String → Json
  | arr : List Json → Json
  | obj : List (String × Json) → Json

/-- Field lookup in an object's field list: first binding wins, `null` when absent. -/
def getField : List (String × Json) → String → Json
  | [], _ => Json.null
  | (k, v) :: rest, key => if k = key then v else getField rest key

/-- Model of `value[key]` on `serde_json::Value`: `Null` for a missing key or a
non-object value. -/
def Json.get (v : Json) (key : String) : Json :=
  match v with
  | Json.obj fields => getField fields key
  | _ => Json.null

/-- Model of `Value::as_str`. -/
def Json.as_str : Json → Option String
  | Json.str s => some s
  | _ => none

/-- Model of `Value::as_array`. -/
def Json.as_array : Json → Option (List Json)
  | Json.arr xs => some xs
  | _ => none

/-- Model of `Value::is_null`. -/
def Json.is_null : Json → Bool
  | Json.null => true
  | _ => false

/-- The list of keys of an object (empty for non-objects). -/
def objKeys : Json → List String
  | Json.obj fields => fields.map Prod.fst
  | _ => []

/-- `HashMap::get` on an association list. -/
def alistGet {α : Type} : List (String × α) → String → Option α
  | [], _ => none
  | (k1, v1) :: rest, k => if k1 = k then some v1 else alistGet rest k

/-- `HashMap::insert` on an association list: overwrite the existing binding in
place, or append a new one. -/
def alistSet {α : Type} : List (String × α) → String → α → List (String × α)
  | [], k, v => [(k, v)]
  | (k1, v1) :: rest, k, v =>
    if k1 = k then (k1, v) :: rest else (k1, v1) :: alistSet rest k v

/-- `HashSet::insert` on a duplicate-free list. -/
def insertUniq (xs : List String) (x : String) : List String :=
  if x ∈ xs then xs else xs ++ [x]

/-- Lines 219-225 of `lib.rs`: the set of department names found in the
syllabus (class-todo) subject array, a missing or non-string `estbDpmjNm`
degrading to `""`. -/
def departments_set (departments : List Json) : List String :=
  departments.foldl (fun s d => insertUniq s ((d.get "estbDpmjNm").as_str.getD "")) []

/-- `ClassTodo` (lines 63-74 of `lib.rs`): the department, major, email and
phone resolved from the syllabus for one subject. -/
structure ClassTodo where
  department : Json
  major : Json
  email : Json
  phone : Json

/-- The composite key a syllabus record is indexed under (lines 127-131 of
`lib.rs`): `format!("{}-{}", subject["subjtCd"].as_str().unwrap_or(""),
subject["diclNo"].as_str().unwrap_or(""))`. -/
def recordKey (subject : Json) : String :=
  ((subject.get "subjtCd").as_str.getD "") ++ "-" ++ ((subject.get "diclNo").as_str.getD "")

/-- `ClassTodo::get_department_info` (lines 121-142 of `lib.rs`): scan the
syllabus subject list for the first record whose composite key equals
`subject_code ++ "-" ++ dicl_number` and return its four fields; all-`Null`
when no record matches. -/
def ClassTodo.get_department_info : List Json → String → String → ClassTodo
  | [], _, _ => ⟨Json.null, Json.null, Json.null, Json.null⟩
  | subject :: rest, subject_code, dicl_number =>
    if recordKey subject = subject_code ++ "-" ++ dicl_number then
      ⟨subject.get "estbDpmjNm", subject.get "estbMjorNm",
        subject.get "email", subject.get "mpno"⟩
    else ClassTodo.get_department_info rest subject_code dicl_number

/-- The first syllabus record matching a composite key, if any: the record
whose fields `ClassTodo.get_department_info` returns. -/
def findFirstMatch : List Json → String → String → Option Json
  | [], _, _ => none
  | subject :: rest, subject_code, dicl_number =>
    if recordKey subject = subject_code ++ "-" ++ dicl_number then some subject
    else findFirstMatch rest subject_code dicl_number

/-- The merged course record pushed into the subject bucket (the `json!` object
of lines 261-280 of `lib.rs`): a fixed whitelist of fields copied from the
open-class record plus `estbDpmjNm`/`estbMjorNm` taken from the resolved
syllabus data `temp`. -/
def mergedRecord (subject : Json) (temp : ClassTodo) : Json :=
  Json.obj [
    ("trgtGrdeCd", subject.get "trgtGrdeCd"),
    ("subjtNm", subject.get "subjtNm"),
    ("ltrPrfsNm", subject.get "ltrPrfsNm"),
    ("deptNm", subject.get "deptNm"),
    ("facDvnm", subject.get "facDvnm"),
    ("timtSmryCn", subject.get "timtSmryCn"),
    ("lssnLangNm", subject.get "lssnLangNm"),
    ("subjtCd", subject.get "subjtCd"),
    ("diclNo", subject.get "diclNo"),
    ("subjtEstbYear", subject.get "subjtEstbYear"),
    ("point", subject.get "point"),
    ("cltTerrNm", subject.get "cltTerrNm"),
    ("sexCdNm", subject.get "sexCdNm"),
    ("hffcStatNm", subject.get "hffcStatNm"),
    ("clsfNm", subject.get "clsfNm"),
    ("capprTypeNm", subject.get "capprTypeNm"),
    ("estbDpmjNm", temp.department),
    ("estbMjorNm", temp.major)]

/-- The abnormal outcomes of `make_db_content`: `missingArray` models the
`std::process::exit(1)` taken when a top-level `estbLectDtaiList` array is
absent, `panicUnwrap` models a panicking `Option::unwrap` in the merge pass. -/
inductive DbError : Type where
  | missingArray : String → DbError
  | panicUnwrap : DbError
deriving DecidableEq

/-- The three maps mutated by the merge pass of `make_db_content`
(`departments_map`, `subject_map` and `contact_map`, lines 226-235 of
`lib.rs`). -/
structure MergeState where
  departments_map : List (String × List String)
  subject_map : List (String × List Json)
  contact_map : List (String × List (String × Json))

/-- Lines 254-259 of `lib.rs`: when the resolved major is not null, insert it
into the resolved department's major set; the two `unwrap`s (on
`department.as_str()` and on the map lookup) and `major.as_str().unwrap()`
panic when they fail. -/
def mergeStepMajors (st : MergeState) (temp : ClassTodo) : Except DbError MergeState :=
  if temp.major.is_null then Except.ok st
  else
    match temp.department.as_str with
    | none => Except.error DbError.panicUnwrap
    | some d =>
      match alistGet st.departments_map d with
      | none => Except.error DbError.panicUnwrap
      | some majors =>
        match temp.major.as_str with
        | none => Except.error DbError.panicUnwrap
        | some m =>
          Except.ok { st with departments_map := alistSet st.departments_map d (insertUniq majors m) }

/-- Lines 260-286 of `lib.rs`: if the resolved department `d` is a key of the
subject map, push the merged record onto its bucket; otherwise print a
diagnostic and drop the record. -/
def mergeStepSubject (st : MergeState) (temp : ClassTodo) (subject : Json) (d : String) : MergeState :=
  match alistGet st.subject_map d with
  | some subjects =>
    { st with subject_map := alistSet st.subject_map d (subjects ++ [mergedRecord subject temp]) }
  | none => st

/-- Lines 287-292 of `lib.rs`: if the resolved department `d` is a key of the
contact map, upsert the instructor's contact info under the open-class
record's `ltrPrfsNm` (missing degrading to `""`). -/
def mergeStepContact (st : MergeState) (temp : ClassTodo) (subject : Json) (d : String) : MergeState :=
  match alistGet st.contact_map d with
  | some contacts =>
    let updated := alistSet contacts ((subject.get "ltrPrfsNm").as_str.getD "")
      (Json.obj [("email", temp.email), ("mpno", temp.phone)])
    { st with contact_map := alistSet st.contact_map d updated }
  | none => st

/-- The body of one iteration of the loop over open-class subjects, after the
syllabus info `temp` has been resolved (lines 254-293 of `lib.rs`): update the
major set, the subject bucket and the contact map.  The
`temp.department.as_str().unwrap()` of line 260 is evaluated unconditionally
and panics when the resolved department is not a string. -/
def mergeStepResolved (st : MergeState) (subject : Json) (temp : ClassTodo) : Except DbError MergeState :=
  match mergeStepMajors st temp with
  | Except.error e => Except.error e
  | Except.ok st1 =>
    match temp.department.as_str with
    | none => Except.error DbError.panicUnwrap
    | some d => Except.ok (mergeStepContact (mergeStepSubject st1 temp subject d) temp subject d)

/-- One iteration of the loop over open-class subjects (lines 248-293 of
`lib.rs`): resolve the syllabus info for the record's composite key (lines
249-253, missing components degrading to `""`), then apply
`mergeStepResolved`. -/
def mergeStep (todo_subjects : List Json) (st : MergeState) (subject : Json) : Except DbError MergeState :=
  mergeStepResolved st subject (ClassTodo.get_department_info todo_subjects
    ((subject.get "subjtCd").as_str.getD "") ((subject.get "diclNo").as_str.getD ""))

/-- The whole loop over the open-class subject list, in source order. -/
def mergePass (todo_subjects : List Json) : List Json → MergeState → Except DbError MergeState
  | [], st => Except.ok st
  | subject :: rest, st =>
    match mergeStep todo_subjects st subject with
    | Except.error e => Except.error e
    | Except.ok st1 => mergePass todo_subjects rest st1

/-- Lines 226-235 of `lib.rs`: every department discovered in the syllabus is
pre-seeded with an empty major set, an empty subject bucket and an empty
contact map before the merge pass runs. -/
def initState (ds : List String) : MergeState where
  departments_map := ds.map (fun d => (d, ([] : List String)))
  subject_map := ds.map (fun d => (d, ([] : List Json)))
  contact_map := ds.map (fun d => (d, ([] : List (String × Json))))

/-- Lines 294-304 of `lib.rs`: the final document, with the departments and
subjects keys switched to their `_quick` variants under `quick_mode`, and a
`version` object whose `legacy_app_ver` is the literal `"0.0"`. -/
def assembleResult (quick_mode : Bool) (st : MergeState)
    (latest_app_version db_version : String) : Json :=
  Json.obj [
    ((if quick_mode then "departments_quick" else "departments"),
      Json.obj (st.departments_map.map (fun p => (p.1, Json.arr (p.2.map Json.str))))),
    ((if quick_mode then "estbLectDtaiList_quick" else "estbLectDtaiList"),
      Json.obj (st.subject_map.map (fun p => (p.1, Json.arr p.2)))),
    ("contacts", Json.obj (st.contact_map.map (fun p => (p.1, Json.obj p.2)))),
    ("version", Json.obj [
      ("app_ver", Json.str latest_app_version),
      ("db_ver", Json.str db_version),
      ("legacy_app_ver", Json.str "0.0")])]

/-- `make_db_content` (lines 204-306 of `lib.rs`), on the two parsed
documents.  The source extracts `class_todo_data["estbLectDtaiList"]` twice
(lines 213 and 242, as `departments` and `todo_subjects`); both extractions are
kept, in source order, between the extraction of the open-class array. -/
def make_db_content (open_class_data class_todo_data : Json)
    (latest_app_version db_version : String) (quick_mode : Bool) : Except DbError Json :=
  match (class_todo_data.get "estbLectDtaiList").as_array with
  | none => Except.error (DbError.missingArray "departments")
  | some departments =>
    match (open_class_data.get "estbLectDtaiList").as_array with
    | none => Except.error (DbError.missingArray "open_subjects")
    | some open_subjects =>
      match (class_todo_data.get "estbLectDtaiList").as_array with
      | none => Except.error (DbError.missingArray "todo_subjects")
      | some todo_subjects =>
        match mergePass todo_subjects open_subjects (initState (departments_set departments)) with
        | Except.error e => Except.error e
        | Except.ok st => Except.ok (assembleResult quick_mode st latest_app_version db_version)

/-- The dataflow of `file_process` (lines 153-186 of `lib.rs`) up to its call
of `make_db_content`: the filesystem is a map from file name to content, both
files are read, and the call receives the two contents, the two version
strings and `quick_mode := (open_class_filename == class_todo_filename)`
(line 175).  `none` models a failed read. -/
def file_process_call (fs : String → Option String)
    (open_class_filename class_todo_filename latest_app_version db_version : String) :
    Option (String × String × String × String × Bool) :=
  match fs open_class_filename, fs class_todo_filename with
  | some open_class_content, some class_todo_content =>
    some (open_class_content, class_todo_content, latest_app_version, db_version,
      open_class_filename == class_todo_filename)
  | _, _ => none

/-! ## Concrete documents used to evaluate the model on closed inputs -/

/-- A syllabus document with one record: department `Business`, composite key
`11416-038`. -/
def c1TodoDoc : Json := Json.obj [("estbLectDtaiList", Json.arr [Json.obj
  [("estbDpmjNm", Json.str "Business"), ("subjtCd", Json.str "11416"), ("diclNo", Json.str "038")]])]

/-- An open-class document with one record whose composite key `99999-001`
matches no syllabus record. -/
def c1OpenDoc : Json := Json.obj [("estbLectDtaiList", Json.arr [Json.obj
  [("subjtCd", Json.str "99999"), ("diclNo", Json.str "001")]])]

/-- A syllabus document with a single record for department `Business`. -/
def c6TodoDoc : Json := Json.obj [("estbLectDtaiList", Json.arr [Json.obj
  [("estbDpmjNm", Json.str "Business")]])]

/-- An open-class document with an empty subject array: no open-class record
exists, so no major is ever resolved. -/
def c6OpenDoc : Json := Json.obj [("estbLectDtaiList", Json.arr [])]

/-- The output of the merge on `c6OpenDoc`/`c6TodoDoc`. -/
def c6Result : Json := Json.obj [
  ("departments", Json.obj [("Business", Json.arr [])]),
  ("estbLectDtaiList", Json.obj [("Business", Json.arr [])]),
  ("contacts", Json.obj [("Business", Json.obj [])]),
  ("version", Json.obj [("app_ver", Json.str "1.0"), ("db_ver", Json.str "1"),
    ("legacy_app_ver", Json.str "0.0")])]

/-- A document whose subject array is empty. -/
def emptyDoc : Json := Json.obj [("estbLectDtaiList", Json.arr [])]

/-- The output of the merge on two empty documents. -/
def w8Result : Json := Json.obj [
  ("departments", Json.obj []),
  ("estbLectDtaiList", Json.obj []),
  ("contacts", Json.obj []),
  ("version", Json.obj [("app_ver", Json.str "1.0"), ("db_ver", Json.str "1"),
    ("legacy_app_ver", Json.str "0.0")])]

/-- Syllabus record `A-1` for `Business` with contact `e1@u.edu` / `010-1`. -/
def w5s1 : Json := Json.obj [("subjtCd", Json.str "A"), ("diclNo", Json.str "1"),
  ("estbDpmjNm", Json.str "Business"), ("email", Json.str "e1@u.edu"), ("mpno", Json.str "010-1")]

/-- Syllabus record `A-2` for `Business` with contact `e2@u.edu` / `010-2`. -/
def w5s2 : Json := Json.obj [("subjtCd", Json.str "A"), ("diclNo", Json.str "2"),
  ("estbDpmjNm", Json.str "Business"), ("email", Json.str "e2@u.edu"), ("mpno", Json.str "010-2")]

/-- Open-class record `A-1`, instructor `Kim`. -/
def w5r1 : Json := Json.obj [("subjtCd", Json.str "A"), ("diclNo", Json.str "1"),
  ("ltrPrfsNm", Json.str "Kim")]

/-- Open-class record `A-2`, instructor `Kim`. -/
def w5r2 : Json := Json.obj [("subjtCd", Json.str "A"), ("diclNo", Json.str "2"),
  ("ltrPrfsNm", Json.str "Kim")]

/-- Syllabus document holding `w5s1` then `w5s2`. -/
def w5TodoDoc : Json := Json.obj [("estbLectDtaiList", Json.arr [w5s1, w5s2])]

/-- Open-class document holding `w5r1` then `w5r2`: two records for the same
instructor `Kim` in the same department `Business`, with different resolved
contact pairs. -/
def w5OpenDoc : Json := Json.obj [("estbLectDtaiList", Json.arr [w5r1, w5r2])]

/-- The output of the merge on `w5OpenDoc`/`w5TodoDoc`: the `Business`/`Kim`
contact entry holds the pair of the later record (`e2@u.edu` / `010-2`). -/
def w5Result : Json := Json.obj [("departments", Json.obj [("Business", Json.arr [])]),
  ("estbLectDtaiList", Json.obj [("Business", Json.arr [
    Json.obj [("trgtGrdeCd", Json.null), ("subjtNm", Json.null), ("ltrPrfsNm", Json.str "Kim"),
      ("deptNm", Json.null), ("facDvnm", Json.null), ("timtSmryCn", Json.null),
      ("lssnLangNm", Json.null), ("subjtCd", Json.str "A"), ("diclNo", Json.str "1"),
      ("subjtEstbYear", Json.null), ("point", Json.null), ("cltTerrNm", Json.null),
      ("sexCdNm", Json.null), ("hffcStatNm", Json.null), ("clsfNm", Json.null),
      ("capprTypeNm", Json.null), ("estbDpmjNm", Json.str "Business"), ("estbMjorNm", Json.null)],
    Json.obj [("trgtGrdeCd", Json.null), ("subjtNm", Json.null), ("ltrPrfsNm", Json.str "Kim"),
      ("deptNm", Json.null), ("facDvnm", Json.null), ("timtSmryCn", Json.null),
      ("lssnLangNm", Json.null), ("subjtCd", Json.str "A"), ("diclNo", Json.str "2"),
      ("subjtEstbYear", Json.null), ("point", Json.null), ("cltTerrNm", Json.null),
      ("sexCdNm", Json.null), ("hffcStatNm", Json.null), ("clsfNm", Json.null),
      ("capprTypeNm", Json.null), ("estbDpmjNm", Json.str "Business"), ("estbMjorNm", Json.null)]])]),
  ("contacts", Json.obj [("Business", Json.obj [("Kim",
    Json.obj [("email", Json.str "e2@u.edu"), ("mpno", Json.str "010-2")])])]),
  ("version", Json.obj [("app_ver", Json.str "1.0"), ("db_ver", Json.str "1"),
    ("legacy_app_ver", Json.str "0.0")])]

/-- Syllabus record with key `11416-038`, department `Business`, null major. -/
def w4s1 : Json := Json.obj [("subjtCd", Json.str "11416"), ("diclNo", Json.str "038"),
  ("estbDpmjNm", Json.str "Business"), ("estbMjorNm", Json.null)]

/-- Open-class record with the matching key that carries its own
`estbDpmjNm`/`estbMjorNm` fields (`OwnDept`/`OwnMajor`). -/
def w4subject : Json := Json.obj [("estbDpmjNm", Json.str "OwnDept"),
  ("estbMjorNm", Json.str "OwnMajor"), ("subjtCd", Json.str "11416"), ("diclNo", Json.str "038")]

/-! ## Lemmas about the association-list and set models -/

theorem objKeys_obj (fields : List (String × Json)) : objKeys (Json.obj fields) = fields.map Prod.fst := rfl

theorem mem_keys_of_alistGet {α : Type} (m : List (String × α)) (k : String) (v : α)
    (h : alistGet m k = some v) : k ∈ m.map Prod.fst := by
  induction m with
  | nil => simp [alistGet] at h
  | cons p rest ih =>
    obtain ⟨k1, v1⟩ := p
    by_cases hk : k1 = k
    · subst hk; simp
    · simp only [alistGet, if_neg hk] at h
      simp [ih h]

theorem alistGet_of_mem_keys {α : Type} (m : List (String × α)) (k : String)
    (h : k ∈ m.map Prod.fst) : ∃ v, alistGet m k = some v := by
  induction m with
  | nil => simp at h
  | cons p rest ih =>
    obtain ⟨k1, v1⟩ := p
    by_cases hk : k1 = k
    · exact ⟨v1, by simp [alistGet, hk]⟩
    · simp only [List.map_cons, List.mem_cons] at h
      rcases h with h | h
      · exact absurd h.symm hk
      · obtain ⟨v, hv⟩ := ih h
        exact ⟨v, by simp [alistGet, hk, hv]⟩

theorem alistSet_keys {α : Type} (m : List (String × α)) (k : String) (v : α)
    (h : k ∈ m.map Prod.fst) : (alistSet m k v).map Prod.fst = m.map Prod.fst := by
  induction m with
  | nil => simp at h
  | cons p rest ih =>
    obtain ⟨k1, v1⟩ := p
    by_cases hk : k1 = k
    · simp [alistSet, hk]
    · simp only [List.map_cons, List.mem_cons] at h
      rcases h with h | h
      · exact absurd h.symm hk
      · simp [alistSet, hk, ih h]

theorem alistGet_alistSet_self {α : Type} (m : List (String × α)) (k : String) (v : α) :
    alistGet (alistSet m k v) k = some v := by
  induction m with
  | nil => simp [alistSet, alistGet]
  | cons p rest ih =>
    obtain ⟨k1, v1⟩ := p
    by_cases hk : k1 = k
    · simp [alistSet, hk, alistGet]
    · simp [alistSet, hk, alistGet, ih]

theorem getField_alistSet_self (m : List (String × Json)) (k : String) (v : Json) :
    getField (alistSet m k v) k = v := by
  induction m with
  | nil => simp [alistSet, getField]
  | cons p rest ih =>
    obtain ⟨k1, v1⟩ := p
    by_cases hk : k1 = k
    · simp [alistSet, hk, getField]
    · simp [alistSet, hk, getField, ih]

theorem getField_map_of_alistGet {α : Type} (m : List (String × α)) (f : α → Json)
    (k : String) (v : α) (h : alistGet m k = some v) :
    getField (m.map (fun p => (p.1, f p.2))) k = f v := by
  induction m with
  | nil => simp [alistGet] at h
  | cons p rest ih =>
    obtain ⟨k1, v1⟩ := p
    by_cases hk : k1 = k
    · simp only [alistGet, if_pos hk] at h
      cases h
      simp [getField, hk]
    · simp only [alistGet, if_neg hk] at h
      simp [getField, hk, ih h]

theorem map_fst_map_pair {α β : Type} (l : List (String × α)) (f : String × α → β) :
    (l.map (fun p => (p.1, f p))).map Prod.fst = l.map Prod.fst := by
  induction l with
  | nil => rfl
  | cons p rest ih => simp [ih]

theorem seed_keys {α : Type} (ds : List String) (v : α) :
    (ds.map (fun d => (d, v))).map Prod.fst = ds := by
  induction ds with
  | nil => rfl
  | cons d rest ih => simp [ih]

theorem alistGet_seed {α : Type} (ds : List String) (v : α) (k : String) (h : k ∈ ds) :
    alistGet (ds.map (fun d => (d, v))) k = some v := by
  induction ds with
  | nil => simp at h
  | cons d rest ih =>
    by_cases hd : d = k
    · simp [alistGet, hd]
    · rcases List.mem_cons.mp h with h1 | h1
      · exact absurd h1.symm hd
      · simp [alistGet, hd, ih h1]

theorem mem_insertUniq_self (xs : List String) (x : String) : x ∈ insertUniq xs x := by
  unfold insertUniq
  split
  · assumption
  · simp

theorem mem_insertUniq_of_mem (xs : List String) (x y : String) (h : y ∈ xs) :
    y ∈ insertUniq xs x := by
  unfold insertUniq
  split
  · exact h
  · simp [h]

theorem departments_set_go_mono (l : List Json) (acc : List String) (y : String) (h : y ∈ acc) :
    y ∈ l.foldl (fun s d => insertUniq s ((d.get "estbDpmjNm").as_str.getD "")) acc := by
  induction l generalizing acc with
  | nil => simpa using h
  | cons d rest ih => exact ih _ (mem_insertUniq_of_mem _ _ _ h)

theorem mem_departments_set_go (l : List Json) (r : Json) (h : r ∈ l) (acc : List String) :
    ((r.get "estbDpmjNm").as_str.getD "") ∈
      l.foldl (fun s d => insertUniq s ((d.get "estbDpmjNm").as_str.getD "")) acc := by
  induction l generalizing acc with
  | nil => simp at h
  | cons d rest ih =>
    rcases List.mem_cons.mp h with h1 | h1
    · subst h1
      exact departments_set_go_mono rest _ _ (mem_insertUniq_self _ _)
    · exact ih h1 _

theorem mem_departments_set (l : List Json) (r : Json) (h : r ∈ l) :
    ((r.get "estbDpmjNm").as_str.getD "") ∈ departments_set l :=
  mem_departments_set_go l r h []

/-! ## Lemmas about the syllabus lookup -/

theorem get_department_info_eq (subjects : List Json) (code dicl : String) :
    ClassTodo.get_department_info subjects code dicl =
      match findFirstMatch subjects code dicl with
      | some t => ⟨t.get "estbDpmjNm", t.get "estbMjorNm", t.get "email", t.get "mpno"⟩
      | none => ⟨Json.null, Json.null, Json.null, Json.null⟩ := by
  induction subjects with
  | nil => rfl
  | cons s rest ih =>
    by_cases h : recordKey s = code ++ "-" ++ dicl
    · simp [ClassTodo.get_department_info, findFirstMatch, h]
    · simp only [ClassTodo.get_department_info, findFirstMatch, if_neg h]
      exact ih

theorem findFirstMatch_mem (subjects : List Json) (code dicl : String) (t : Json)
    (h : findFirstMatch subjects code dicl = some t) : t ∈ subjects := by
  induction subjects with
  | nil => simp [findFirstMatch] at h
  | cons s rest ih =>
    by_cases hs : recordKey s = code ++ "-" ++ dicl
    · simp only [findFirstMatch, if_pos hs, Option.some.injEq] at h
      subst h
      simp
    · simp only [findFirstMatch, if_neg hs] at h
      simp [ih h]

/-- A resolved department that is a string is always a member of the seeded
department set: it is the `estbDpmjNm` of some syllabus record, and every
syllabus record's department string is inserted during seeding. -/
theorem resolved_department_mem (todos : List Json) (code dicl : String) (s : String)
    (h : (ClassTodo.get_department_info todos code dicl).department.as_str = some s) :
    s ∈ departments_set todos := by
  rw [get_department_info_eq] at h
  cases hf : findFirstMatch todos code dicl with
  | none => rw [hf] at h; exact Option.noConfusion h
  | some t =>
    rw [hf] at h
    have hmem := mem_departments_set todos t (findFirstMatch_mem _ _ _ _ hf)
    have hs : ((t.get "estbDpmjNm").as_str.getD "") = s := by
      simp only [] at h
      rw [h]
      rfl
    rwa [hs] at hmem

theorem mergedRecord_get_estbDpmjNm (subject : Json) (temp : ClassTodo) :
    (mergedRecord subject temp).get "estbDpmjNm" = temp.department := rfl

theorem mergedRecord_get_estbMjorNm (subject : Json) (temp : ClassTodo) :
    (mergedRecord subject temp).get "estbMjorNm" = temp.major := rfl

/-! ## Key preservation through the merge pass -/

theorem mergeStepMajors_ok (st st1 : MergeState) (temp : ClassTodo)
    (h : mergeStepMajors st temp = Except.ok st1) :
    st1.departments_map.map Prod.fst = st.departments_map.map Prod.fst ∧
    st1.subject_map = st.subject_map ∧ st1.contact_map = st.contact_map := by
  unfold mergeStepMajors at h
  by_cases hn : temp.major.is_null = true
  · rw [if_pos hn] at h
    cases h
    exact ⟨rfl, rfl, rfl⟩
  · rw [if_neg hn] at h
    cases hd : temp.department.as_str with
    | none => rw [hd] at h; exact Except.noConfusion h
    | some d =>
      simp only [hd] at h
      cases hg : alistGet st.departments_map d with
      | none => simp only [hg] at h; exact Except.noConfusion h
      | some majors =>
        simp only [hg] at h
        cases hm : temp.major.as_str with
        | none => simp only [hm] at h; exact Except.noConfusion h
        | some m =>
          simp only [hm] at h
          cases h
          exact ⟨alistSet_keys _ _ _ (mem_keys_of_alistGet _ _ _ hg), rfl, rfl⟩

theorem mergeStepSubject_facts (st : MergeState) (temp : ClassTodo) (subject : Json) (d : String) :
    (mergeStepSubject st temp subject d).departments_map = st.departments_map ∧
    (mergeStepSubject st temp subject d).subject_map.map Prod.fst = st.subject_map.map Prod.fst ∧
    (mergeStepSubject st temp subject d).contact_map = st.contact_map := by
  unfold mergeStepSubject
  cases hg : alistGet st.subject_map d with
  | none => exact ⟨rfl, rfl, rfl⟩
  | some subjects =>
    exact ⟨rfl, alistSet_keys _ _ _ (mem_keys_of_alistGet _ _ _ hg), rfl⟩

theorem mergeStepContact_facts (st : MergeState) (temp : ClassTodo) (subject : Json) (d : String) :
    (mergeStepContact st temp subject d).departments_map = st.departments_map ∧
    (mergeStepContact st temp subject d).subject_map = st.subject_map ∧
    (mergeStepContact st temp subject d).contact_map.map Prod.fst = st.contact_map.map Prod.fst := by
  unfold mergeStepContact
  cases hg : alistGet st.contact_map d with
  | none => exact ⟨rfl, rfl, rfl⟩
  | some contacts =>
    exact ⟨rfl, rfl, alistSet_keys _ _ _ (mem_keys_of_alistGet _ _ _ hg)⟩

theorem mergeStepResolved_keys (st stF : MergeState) (subject : Json) (temp : ClassTodo)
    (h : mergeStepResolved st subject temp = Except.ok stF) :
    stF.departments_map.map Prod.fst = st.departments_map.map Prod.fst ∧
    stF.subject_map.map Prod.fst = st.subject_map.map Prod.fst ∧
    stF.contact_map.map Prod.fst = st.contact_map.map Prod.fst := by
  unfold mergeStepResolved at h
  cases hM : mergeStepMajors st temp with
  | error e => rw [hM] at h; exact Except.noConfusion h
  | ok st1 =>
    rw [hM] at h
    cases hd : temp.department.as_str with
    | none => rw [hd] at h; exact Except.noConfusion h
    | some d =>
      rw [hd] at h
      cases h
      obtain ⟨e1, e2, e3⟩ := mergeStepMajors_ok st st1 temp hM
      obtain ⟨f1, f2, f3⟩ := mergeStepSubject_facts st1 temp subject d
      obtain ⟨g1, g2, g3⟩ := mergeStepContact_facts (mergeStepSubject st1 temp subject d) temp subject d
      refine ⟨?_, ?_, ?_⟩
      · rw [g1, f1, e1]
      · rw [g2, f2, e2]
      · rw [g3, f3, e3]

theorem mergeStep_keys (todo : List Json) (st stF : MergeState) (subject : Json)
    (h : mergeStep todo st subject = Except.ok stF) :
    stF.departments_map.map Prod.fst = st.departments_map.map Prod.fst ∧
    stF.subject_map.map Prod.fst = st.subject_map.map Prod.fst ∧
    stF.contact_map.map Prod.fst = st.contact_map.map Prod.fst :=
  mergeStepResolved_keys st stF subject _ h

theorem mergePass_keys (todo opens : List Json) : ∀ (st stF : MergeState),
    mergePass todo opens st = Except.ok stF →
    stF.departments_map.map Prod.fst = st.departments_map.map Prod.fst ∧
    stF.subject_map.map Prod.fst = st.subject_map.map Prod.fst ∧
    stF.contact_map.map Prod.fst = st.contact_map.map Prod.fst := by
  induction opens with
  | nil =>
    intro st stF h
    unfold mergePass at h
    cases h
    exact ⟨rfl, rfl, rfl⟩
  | cons x rest ih =>
    intro st stF h
    unfold mergePass at h
    cases hs : mergeStep todo st x with
    | error e =>
      rw [hs] at h
      exact Except.noConfusion h
    | ok st1 =>
      rw [hs] at h
      obtain ⟨a1, a2, a3⟩ := mergeStep_keys todo st st1 x hs
      obtain ⟨b1, b2, b3⟩ := ih st1 stF h
      exact ⟨b1.trans a1, b2.trans a2, b3.trans a3⟩

theorem mergePass_append (todo xs ys : List Json) : ∀ st : MergeState,
    mergePass todo (xs ++ ys) st =
      match mergePass todo xs st with
      | Except.error e => Except.error e
      | Except.ok st1 => mergePass todo ys st1 := by
  induction xs with
  | nil => intro st; rfl
  | cons x rest ih =>
    intro st
    show mergePass todo (x :: (rest ++ ys)) st = _
    simp only [mergePass]
    cases hs : mergeStep todo st x with
    | error e => simp only [hs]
    | ok st1 => simp only [hs]; exact ih st1

theorem initState_departments_keys (ds : List String) :
    (initState ds).departments_map.map Prod.fst = ds := seed_keys ds []

theorem initState_subject_keys (ds : List String) :
    (initState ds).subject_map.map Prod.fst = ds := seed_keys ds []

theorem initState_contact_keys (ds : List String) :
    (initState ds).contact_map.map Prod.fst = ds := seed_keys ds []

/-! ## The contact upsert performed by one merge step -/

theorem mergeStepResolved_contact_update (st stF : MergeState) (subject : Json)
    (temp : ClassTodo) (d : String) (cs : List (String × Json))
    (h : mergeStepResolved st subject temp = Except.ok stF)
    (hd : temp.department.as_str = some d)
    (hcs : alistGet st.contact_map d = some cs) :
    alistGet stF.contact_map d =
      some (alistSet cs ((subject.get "ltrPrfsNm").as_str.getD "")
        (Json.obj [("email", temp.email), ("mpno", temp.phone)])) := by
  unfold mergeStepResolved at h
  cases hM : mergeStepMajors st temp with
  | error e => rw [hM] at h; exact Except.noConfusion h
  | ok st1 =>
    simp only [hM, hd] at h
    cases h
    obtain ⟨-, -, hc1⟩ := mergeStepMajors_ok st st1 temp hM
    obtain ⟨-, -, hc2⟩ := mergeStepSubject_facts st1 temp subject d
    unfold mergeStepContact
    rw [hc2, hc1, hcs]
    simp only [alistGet_alistSet_self]

/-! ## Inversion of a successful `make_db_content` run -/

theorem make_db_content_ok (open_class_data class_todo_data : Json)
    (app db : String) (qm : Bool) (result : Json) (todos opens : List Json)
    (htodo : (class_todo_data.get "estbLectDtaiList").as_array = some todos)
    (hopen : (open_class_data.get "estbLectDtaiList").as_array = some opens)
    (h : make_db_content open_class_data class_todo_data app db qm = Except.ok result) :
    ∃ st, mergePass todos opens (initState (departments_set todos)) = Except.ok st ∧
      result = assembleResult qm st app db := by
  unfold make_db_content at h
  simp only [htodo, hopen] at h
  cases hm : mergePass todos opens (initState (departments_set todos)) with
  | error e =>
    simp only [hm] at h
    exact Except.noConfusion h
  | ok st =>
    simp only [hm] at h
    cases h
    exact ⟨st, rfl, rfl⟩

/-! ## Projections of the assembled result document -/

theorem assembleResult_get_departments (qm : Bool) (st : MergeState) (app db : String) :
    (assembleResult qm st app db).get (if qm then "departments_quick" else "departments") =
      Json.obj (st.departments_map.map (fun p => (p.1, Json.arr (p.2.map Json.str)))) := by
  cases qm <;> rfl

theorem assembleResult_get_subjects (qm : Bool) (st : MergeState) (app db : String) :
    (assembleResult qm st app db).get (if qm then "estbLectDtaiList_quick" else "estbLectDtaiList") =
      Json.obj (st.subject_map.map (fun p => (p.1, Json.arr p.2))) := by
  cases qm <;> rfl

theorem assembleResult_get_contacts (qm : Bool) (st : MergeState) (app db : String) :
    (assembleResult qm st app db).get "contacts" =
      Json.obj (st.contact_map.map (fun p => (p.1, Json.obj p.2))) := by
  cases qm <;> rfl

/-! ## The claims -/

/-- C1: for the open-class record with key `99999-001`, which matches no
syllabus record, the resolution does yield all four fields absent (first
conjunct, as the claim states), but the record is then NOT dropped from the
maps with a diagnostic: the merge pass feeds the null department into the
unchecked `temp.department.as_str().unwrap()` of line 260 of `lib.rs` and the
run aborts (second conjunct), contrary to the claim's "never routed to an
unchecked lookup that aborts". -/
theorem c1_unmatched_open_record_panics :
    ClassTodo.get_department_info [Json.obj [("estbDpmjNm", Json.str "Business"),
      ("subjtCd", Json.str "11416"), ("diclNo", Json.str "038")]] "99999" "001" =
      ⟨Json.null, Json.null, Json.null, Json.null⟩ ∧
    make_db_content c1OpenDoc c1TodoDoc "1.0" "1" false = Except.error DbError.panicUnwrap :=
  ⟨rfl, rfl⟩

/-- C2 counterexample: with a filesystem mapping every name to the content
`"x"`, the two files `open.json` and `todo.json` have byte-identical contents,
yet the quick-mode flag passed to the merge is `false`: `file_process`
compares the two file NAMES (line 175 of `lib.rs`), not the contents, so
"quick_mode is true iff the two raw input texts are byte-identical" fails. -/
theorem c2_identical_contents_not_quick :
    file_process_call (fun _ => some "x") "open.json" "todo.json" "1.0" "1" =
      some ("x", "x", "1.0", "1", false) := rfl

/-- C2 (amended): the quick-mode flag passed to the merge is true iff the two
input file NAMES are equal; equal names imply equal contents (the same file is
read twice), but identical contents under distinct names give
`quick_mode = false`. -/
theorem c2_quick_mode_iff_same_filename (fs : String → Option String)
    (f1 f2 a d c1 c2 x y : String) (q : Bool)
    (h : file_process_call fs f1 f2 a d = some (c1, c2, x, y, q)) :
    (q = true ↔ f1 = f2) ∧ (f1 = f2 → c1 = c2) := by
  unfold file_process_call at h
  cases h1 : fs f1 with
  | none => rw [h1] at h; exact Option.noConfusion h
  | some o =>
    cases h2 : fs f2 with
    | none => rw [h1, h2] at h; exact Option.noConfusion h
    | some c =>
      rw [h1, h2] at h
      have h3 := Option.some.inj h
      simp only [Prod.mk.injEq] at h3
      obtain ⟨rfl, rfl, rfl, rfl, rfl⟩ := h3
      constructor
      · exact beq_iff_eq
      · intro hf
        rw [hf] at h1
        rw [h1] at h2
        exact Option.some.inj h2

/-- C2 witness: instantiating the amended claim at a concrete run where both
file names are `a.json`. -/
theorem c2_quick_mode_iff_same_filename_witness :
    ((true = true) ↔ ("a.json" : String) = "a.json") ∧
    (("a.json" : String) = "a.json" → ("x" : String) = "x") :=
  c2_quick_mode_iff_same_filename (fun _ => some "x") "a.json" "a.json" "1.0" "1"
    "x" "x" "1.0" "1" true rfl

/-- C4: when an open-class record's composite key matches a syllabus record
`t` (the first match, which is the one the lookup returns), the merged record
appended to the output carries `t`'s `estbDpmjNm` and `estbMjorNm` as its
department and major — regardless of any department/major fields the
open-class record `subject` itself carries, since `mergedRecord` writes
`temp.department`/`temp.major` over those keys. -/
theorem c4_matched_record_uses_syllabus_department (todo_subjects : List Json)
    (code dicl : String) (t subject : Json)
    (h : findFirstMatch todo_subjects code dicl = some t) :
    (mergedRecord subject (ClassTodo.get_department_info todo_subjects code dicl)).get "estbDpmjNm" =
      t.get "estbDpmjNm" ∧
    (mergedRecord subject (ClassTodo.get_department_info todo_subjects code dicl)).get "estbMjorNm" =
      t.get "estbMjorNm" := by
  rw [get_department_info_eq]
  simp only [h]
  exact ⟨mergedRecord_get_estbDpmjNm _ _, mergedRecord_get_estbMjorNm _ _⟩

/-- C4 witness: the open-class record `w4subject` carries its own
`estbDpmjNm`/`estbMjorNm` (`OwnDept`/`OwnMajor`); the merged record carries
the syllabus record's `Business`/null instead. -/
theorem c4_matched_record_uses_syllabus_department_witness :
    (mergedRecord w4subject (ClassTodo.get_department_info [w4s1] "11416" "038")).get "estbDpmjNm" =
      w4s1.get "estbDpmjNm" ∧
    (mergedRecord w4subject (ClassTodo.get_department_info [w4s1] "11416" "038")).get "estbMjorNm" =
      w4s1.get "estbMjorNm" :=
  c4_matched_record_uses_syllabus_department [w4s1] "11416" "038" w4s1 w4subject rfl

/-- C9 counterexample: two syllabus records both missing the key fields share
the empty composite key; the lookup with that key resolves to the FIRST such
record (email `e1`), not the last (`e2`) as the claim states. -/
theorem c9_last_keyless_record_does_not_win :
    (ClassTodo.get_department_info
      [Json.obj [("email", Json.str "e1")], Json.obj [("email", Json.str "e2")]] "" "").email =
      Json.str "e1" ∧
    Json.str "e1" ≠ Json.str "e2" := by
  constructor
  · rfl
  · intro hcontra
    injection hcontra with hs
    exact absurd hs (by decide)

/-- C9 (amended): a syllabus record whose key fields are missing is indexed
under empty-string key components rather than skipped — any head record whose
(possibly degraded) composite key equals the looked-up key is returned, and
all later records sharing that key are ignored: the FIRST match wins,
silently. -/
theorem c9_first_keyless_record_wins (k1 : Json) (rest : List Json) (code dicl : String)
    (hk : recordKey k1 = code ++ "-" ++ dicl) :
    ClassTodo.get_department_info (k1 :: rest) code dicl =
      ⟨k1.get "estbDpmjNm", k1.get "estbMjorNm", k1.get "email", k1.get "mpno"⟩ := by
  unfold ClassTodo.get_department_info
  rw [if_pos hk]

/-- C9 witness: a keyless record at the head of the syllabus list, followed by
another keyless record, is the one returned by the empty-key lookup. -/
theorem c9_first_keyless_record_wins_witness :
    ClassTodo.get_department_info
      [Json.obj [("email", Json.str "e1")], Json.obj [("email", Json.str "e2")]] "" "" =
      ⟨(Json.obj [("email", Json.str "e1")]).get "estbDpmjNm",
        (Json.obj [("email", Json.str "e1")]).get "estbMjorNm",
        (Json.obj [("email", Json.str "e1")]).get "email",
        (Json.obj [("email", Json.str "e1")]).get "mpno"⟩ :=
  c9_first_keyless_record_wins (Json.obj [("email", Json.str "e1")])
    [Json.obj [("email", Json.str "e2")]] "" "" rfl

/-- C10: whenever the resolved department of an open-class record is a JSON
string `s`, that string is a member of the seeded department set and the
pre-seeded subject map maps it to (the initially empty) bucket, so the
"unrecognized department" diagnostic-and-drop branch of the merge pass cannot
fire for a string-valued department: it can only be reached after a non-string
department value (which in fact panics earlier, at line 260 of `lib.rs`). -/
theorem c10_string_department_always_seeded (todos : List Json) (code dicl : String) (s : String)
    (h : (ClassTodo.get_department_info todos code dicl).department.as_str = some s) :
    s ∈ departments_set todos ∧
    alistGet (initState (departments_set todos)).subject_map s = some ([] : List Json) := by
  have hmem := resolved_department_mem todos code dicl s h
  exact ⟨hmem, alistGet_seed _ _ _ hmem⟩

/-- C10 witness: the record with key `11416-038` resolves to the string
department `Business`, which is seeded. -/
theorem c10_string_department_always_seeded_witness :
    ("Business" ∈ departments_set [w4s1]) ∧
    alistGet (initState (departments_set [w4s1])).subject_map "Business" = some ([] : List Json) :=
  c10_string_department_always_seeded [w4s1] "11416" "038" "Business" rfl

/-- C3: on any successful run, the keys of the output subjects map and of the
contacts map are exactly the department set seeded from the syllabus source
before the merge pass, so the department string of every syllabus record `r`
is a key of both maps (possibly with an empty bucket), and the open-class
source never introduces a department key not originating from the syllabus
source. -/
theorem c3_seeding_invariant (open_class_data class_todo_data : Json)
    (app db : String) (qm : Bool) (result : Json) (todos opens : List Json) (r : Json)
    (htodo : (class_todo_data.get "estbLectDtaiList").as_array = some todos)
    (hopen : (open_class_data.get "estbLectDtaiList").as_array = some opens)
    (hr : r ∈ todos)
    (h : make_db_content open_class_data class_todo_data app db qm = Except.ok result) :
    ((r.get "estbDpmjNm").as_str.getD "") ∈
      objKeys (result.get (if qm then "estbLectDtaiList_quick" else "estbLectDtaiList")) ∧
    ((r.get "estbDpmjNm").as_str.getD "") ∈ objKeys (result.get "contacts") ∧
    objKeys (result.get (if qm then "estbLectDtaiList_quick" else "estbLectDtaiList")) =
      departments_set todos ∧
    objKeys (result.get "contacts") = departments_set todos := by
  obtain ⟨st, hm, hres⟩ := make_db_content_ok _ _ _ _ _ _ _ _ htodo hopen h
  obtain ⟨-, k2, k3⟩ := mergePass_keys todos opens _ st hm
  subst hres
  have hsub : objKeys ((assembleResult qm st app db).get
      (if qm then "estbLectDtaiList_quick" else "estbLectDtaiList")) = departments_set todos := by
    rw [assembleResult_get_subjects, objKeys_obj, map_fst_map_pair, k2, initState_subject_keys]
  have hcon : objKeys ((assembleResult qm st app db).get "contacts") = departments_set todos := by
    rw [assembleResult_get_contacts, objKeys_obj, map_fst_map_pair, k3, initState_contact_keys]
  refine ⟨?_, ?_, hsub, hcon⟩
  · rw [hsub]
    exact mem_departments_set todos r hr
  · rw [hcon]
    exact mem_departments_set todos r hr

/-- C3 witness: on the run with one syllabus department `Business` and an
empty open-class list, `Business` is a key of both output maps, and they have
no other keys. -/
theorem c3_seeding_invariant_witness :
    ("Business" ∈ objKeys (c6Result.get "estbLectDtaiList")) ∧
    ("Business" ∈ objKeys (c6Result.get "contacts")) ∧
    objKeys (c6Result.get "estbLectDtaiList") = ["Business"] ∧
    objKeys (c6Result.get "contacts") = ["Business"] :=
  c3_seeding_invariant c6OpenDoc c6TodoDoc "1.0" "1" false c6Result
    [Json.obj [("estbDpmjNm", Json.str "Business")]] []
    (Json.obj [("estbDpmjNm", Json.str "Business")]) rfl rfl (List.Mem.head _) rfl

/-- C6 counterexample: with an empty open-class subject list, no open-class
record ever contributes a major, yet the department `Business` (seeded from
the syllabus, lines 226-229 of `lib.rs`) appears as a key of the serialized
departments map, mapped to an empty array — refuting "a department with zero
resolved majors never appears as a key in the output department taxonomy
map". -/
theorem c6_zero_major_department_appears :
    (c6OpenDoc.get "estbLectDtaiList").as_array = some [] ∧
    make_db_content c6OpenDoc c6TodoDoc "1.0" "1" false = Except.ok c6Result ∧
    (c6Result.get "departments").get "Business" = Json.arr [] ∧
    objKeys (c6Result.get "departments") = ["Business"] :=
  ⟨rfl, rfl, rfl, rfl⟩

/-- C6 (amended): the keys of the output departments taxonomy map are exactly
the department set seeded from the syllabus source: every seeded department
appears, a department with zero resolved majors with an empty array, and no
other key occurs. -/
theorem c6_departments_map_keys_are_seeded_set (open_class_data class_todo_data : Json)
    (app db : String) (qm : Bool) (result : Json) (todos opens : List Json)
    (htodo : (class_todo_data.get "estbLectDtaiList").as_array = some todos)
    (hopen : (open_class_data.get "estbLectDtaiList").as_array = some opens)
    (h : make_db_content open_class_data class_todo_data app db qm = Except.ok result) :
    objKeys (result.get (if qm then "departments_quick" else "departments")) =
      departments_set todos := by
  obtain ⟨st, hm, hres⟩ := make_db_content_ok _ _ _ _ _ _ _ _ htodo hopen h
  obtain ⟨k1, -, -⟩ := mergePass_keys todos opens _ st hm
  subst hres
  rw [assembleResult_get_departments, objKeys_obj, map_fst_map_pair, k1,
    initState_departments_keys]

/-- C6 amended-claim witness: the zero-major department `Business` is exactly
the key set of the output departments map. -/
theorem c6_departments_map_keys_are_seeded_set_witness :
    objKeys (c6Result.get "departments") = ["Business"] :=
  c6_departments_map_keys_are_seeded_set c6OpenDoc c6TodoDoc "1.0" "1" false c6Result
    [Json.obj [("estbDpmjNm", Json.str "Business")]] [] rfl rfl rfl

/-- C8: every successful run produces a document with exactly these four
top-level keys — the departments key (`departments_quick` under quick mode,
else `departments`), the subjects key (`estbLectDtaiList_quick` under quick
mode, else `estbLectDtaiList`), `contacts`, and `version` — and the version
object is `{app_ver, db_ver, legacy_app_ver}` with `legacy_app_ver` the
literal constant `"0.0"` (no caller-supplied legacy value exists anywhere in
the code, so the constant is independent of the caller). -/
theorem c8_output_shape (open_class_data class_todo_data : Json)
    (app db : String) (qm : Bool) (result : Json)
    (h : make_db_content open_class_data class_todo_data app db qm = Except.ok result) :
    objKeys result = [(if qm then "departments_quick" else "departments"),
      (if qm then "estbLectDtaiList_quick" else "estbLectDtaiList"), "contacts", "version"] ∧
    result.get "version" = Json.obj [("app_ver", Json.str app), ("db_ver", Json.str db),
      ("legacy_app_ver", Json.str "0.0")] := by
  unfold make_db_content at h
  cases h1 : (class_todo_data.get "estbLectDtaiList").as_array with
  | none => rw [h1] at h; exact Except.noConfusion h
  | some departments =>
    simp only [h1] at h
    cases h2 : (open_class_data.get "estbLectDtaiList").as_array with
    | none => rw [h2] at h; exact Except.noConfusion h
    | some opens =>
      simp only [h2] at h
      cases hm : mergePass departments opens (initState (departments_set departments)) with
      | error e => rw [hm] at h; exact Except.noConfusion h
      | ok st =>
        simp only [hm] at h
        cases h
        constructor
        · cases qm <;> rfl
        · cases qm <;> rfl

/-- C8 witness: the run on two empty documents produces the four keys in their
non-quick form and the constant `legacy_app_ver`. -/
theorem c8_output_shape_witness :
    objKeys w8Result = ["departments", "estbLectDtaiList", "contacts", "version"] ∧
    w8Result.get "version" = Json.obj [("app_ver", Json.str "1.0"), ("db_ver", Json.str "1"),
      ("legacy_app_ver", Json.str "0.0")] :=
  c8_output_shape emptyDoc emptyDoc "1.0" "1" false w8Result rfl

/-- C5: the contacts map is last-write-wins per (department, instructor) pair
in open-class source order: when the open-class list ends with two records
`r1`, `r2` that resolve to the same string department `d` and carry the same
instructor name `n`, with different resolved email/phone pairs, the output
contact entry at `d`/`n` is the pair of the later record `r2`. -/
theorem c5_contacts_last_write_wins (open_class_data class_todo_data : Json)
    (app db : String) (qm : Bool) (result : Json)
    (todos pre : List Json) (r1 r2 : Json) (temp1 temp2 : ClassTodo) (d n : String)
    (htodo : (class_todo_data.get "estbLectDtaiList").as_array = some todos)
    (hopen : (open_class_data.get "estbLectDtaiList").as_array = some (pre ++ [r1, r2]))
    (ht1 : ClassTodo.get_department_info todos ((r1.get "subjtCd").as_str.getD "")
      ((r1.get "diclNo").as_str.getD "") = temp1)
    (ht2 : ClassTodo.get_department_info todos ((r2.get "subjtCd").as_str.getD "")
      ((r2.get "diclNo").as_str.getD "") = temp2)
    (hd1 : temp1.department.as_str = some d)
    (hd2 : temp2.department.as_str = some d)
    (hn1 : (r1.get "ltrPrfsNm").as_str.getD "" = n)
    (hn2 : (r2.get "ltrPrfsNm").as_str.getD "" = n)
    (hdiff : (temp1.email, temp1.phone) ≠ (temp2.email, temp2.phone))
    (h : make_db_content open_class_data class_todo_data app db qm = Except.ok result) :
    ((result.get "contacts").get d).get n =
      Json.obj [("email", temp2.email), ("mpno", temp2.phone)] := by
  obtain ⟨st, hm, hres⟩ := make_db_content_ok _ _ _ _ _ _ _ _ htodo hopen h
  rw [mergePass_append] at hm
  cases hp : mergePass todos pre (initState (departments_set todos)) with
  | error e => rw [hp] at hm; exact Except.noConfusion hm
  | ok stA =>
    simp only [hp] at hm
    cases h1 : mergeStep todos stA r1 with
    | error e =>
      simp only [mergePass, h1] at hm
      exact Except.noConfusion hm
    | ok stB =>
      simp only [mergePass, h1] at hm
      cases h2 : mergeStep todos stB r2 with
      | error e =>
        simp only [h2] at hm
        exact Except.noConfusion hm
      | ok stC =>
        simp only [h2] at hm
        cases hm
        subst hres
        have hdset : d ∈ departments_set todos :=
          resolved_department_mem todos ((r2.get "subjtCd").as_str.getD "")
            ((r2.get "diclNo").as_str.getD "") d (by rw [ht2]; exact hd2)
        have hkeysA := mergePass_keys todos pre _ stA hp
        have hkeysB := mergeStep_keys todos stA stB r1 h1
        have hdB : d ∈ stB.contact_map.map Prod.fst := by
          rw [hkeysB.2.2, hkeysA.2.2, initState_contact_keys]
          exact hdset
        obtain ⟨cs, hcs⟩ := alistGet_of_mem_keys _ _ hdB
        have h2r : mergeStepResolved stB r2 temp2 = Except.ok st := by
          unfold mergeStep at h2
          rw [ht2] at h2
          exact h2
        have hupd := mergeStepResolved_contact_update stB st r2 temp2 d cs h2r hd2 hcs
        rw [assembleResult_get_contacts]
        have hg : (Json.obj (st.contact_map.map (fun p => (p.1, Json.obj p.2)))).get d =
            Json.obj (alistSet cs ((r2.get "ltrPrfsNm").as_str.getD "")
              (Json.obj [("email", temp2.email), ("mpno", temp2.phone)])) := by
          show getField (st.contact_map.map (fun p => (p.1, Json.obj p.2))) d = _
          exact getField_map_of_alistGet _ _ _ _ hupd
        rw [hg]
        show getField (alistSet cs ((r2.get "ltrPrfsNm").as_str.getD "")
          (Json.obj [("email", temp2.email), ("mpno", temp2.phone)])) n = _
        rw [← hn2]
        exact getField_alistSet_self _ _ _

/-- C5 witness: two open-class records for instructor `Kim` in department
`Business` with resolved pairs (`e1@u.edu`, `010-1`) and (`e2@u.edu`,
`010-2`); the output contact entry holds the later pair. -/
theorem c5_contacts_last_write_wins_witness :
    ((w5Result.get "contacts").get "Business").get "Kim" =
      Json.obj [("email", Json.str "e2@u.edu"), ("mpno", Json.str "010-2")] :=
  c5_contacts_last_write_wins w5OpenDoc w5TodoDoc "1.0" "1" false w5Result
    [w5s1, w5s2] [] w5r1 w5r2
    ⟨Json.str "Business", Json.null, Json.str "e1@u.edu", Json.str "010-1"⟩
    ⟨Json.str "Business", Json.null, Json.str "e2@u.edu", Json.str "010-2"⟩
    "Business" "Kim" rfl rfl rfl rfl rfl rfl rfl rfl
    (by intro hq
        injection hq with he hp2
        injection he with hs
        exact absurd hs (by decide))
    rfl
